import Mathlib

/-!
Shallow embedding of the `statemachine` package (files `types.py` and
`machine.py`): a declarative state-machine execution engine with per-state
retry limits, timeouts, failover targets, guarded transitions, a bounded
execution history and an idle watchdog.

Modelling conventions:
* States are an abstract type `σ` with decidable equality (the Python `Enum`
  members); the state set is the list of enum members.
* Wall-clock time is modelled by an integer count of 0.1-second ticks,
  threaded through the engine state (field `now`); every handler invocation
  advances it by the duration the handler consumed, and the fixed
  `time.sleep(0.1)` between consecutive RETRY results advances it by 1 tick.
  The only non-integer constant of the source, the watchdog warning
  threshold `0.8 * timeout`, is compared exactly via `10 * idle ≥ 8 * wt`.
* A handler is a function of the execution context and of the number of
  handler invocations made so far (the latter models mutable state a Python
  closure may capture); each call either returns a `StateResult` or raises,
  and consumes a duration.
* Python exceptions are modelled with `Except` / explicit error outcomes;
  an uncaught exception carries the engine state at the moment of the raise
  (Python mutates `self` in place, so that state stays observable).
* The inner RETRY loop of `_execute_state` can diverge in Python (no timeout
  and a handler that returns RETRY forever), so it takes a fuel parameter
  and reports divergence when the fuel runs out; likewise the bounded
  retry recursion takes a gas parameter.
* The `_retry_counts` dict (read with `.get(state, 0)`) is modelled as a
  total function `σ → Nat`; `handler_calls` is an instrumentation counter
  for the total number of handler invocations.
-/

namespace SM

/-- Embeds `StateResult` from `types.py`. -/
inductive StateResult : Type
  | SUCCESS
  | FAILURE
  | RETRY
  | SKIP
  | TIMEOUT
deriving DecidableEq, Repr

/-- Embeds `StateMetadata` from `types.py` (the `__post_init__` validation is a
constructor-time check; the claims use already-constructed values). -/
structure StateMetadata (σ : Type) : Type where
  name : String
  description : String := ""
  max_retries : Nat := 3
  timeout : Option Int := none
  failover_state : Option σ := none

/-- Behaviour of one evaluation of a transition guard (`condition` is a
zero-argument callable that may raise). -/
inductive GuardOutcome : Type
  | ok (b : Bool)
  | raises
deriving DecidableEq, Repr

/-- Embeds `StateTransition` from `types.py`. -/
structure StateTransition (σ : Type) : Type where
  from_state : σ
  to_state : σ
  condition : Option GuardOutcome := none

/-- Embeds `StateTransition.can_transition`: true if no condition is set or the
condition returns a truthy value; false if it returns false or raises. -/
def can_transition {σ : Type} (t : StateTransition σ) : Bool :=
  match t.condition with
  | none => true
  | some (GuardOutcome.ok b) => b
  | some GuardOutcome.raises => false

/-- Embeds `StateHistoryEntry` from `types.py` (the open `metadata` dict is an
association list; the engine never inspects it). -/
structure StateHistoryEntry (σ : Type) : Type where
  state : σ
  result : StateResult
  duration : Int
  timestamp : Int
  retry_count : Nat := 0
  error_message : Option String := none
  metadata : List (String × String) := []

/-- Embeds `StateHistoryEntry.succeeded`. -/
def StateHistoryEntry.succeeded {σ : Type} (h : StateHistoryEntry σ) : Bool :=
  h.result = StateResult.SUCCESS

/-- Embeds `StateHistoryEntry.failed`. -/
def StateHistoryEntry.failed {σ : Type} (h : StateHistoryEntry σ) : Bool :=
  h.result = StateResult.FAILURE ∨ h.result = StateResult.TIMEOUT

/-- Embeds `StateExecutionContext` from `types.py`. -/
structure StateExecutionContext (σ : Type) : Type where
  current_state : σ
  retry_count : Nat := 0
  start_time : Int
  metadata : List (String × String) := []

/-- Embeds `StateExecutionContext.elapsed_time` (`time.time() - self.start_time`);
`now` is the ambient clock. -/
def elapsed_time {σ : Type} (ctx : StateExecutionContext σ) (now : Int) : Int :=
  now - ctx.start_time

/-- Embeds `StateExecutionContext.has_timed_out`: `None` never times out, otherwise
`elapsed_time >= timeout`. -/
def has_timed_out {σ : Type} (ctx : StateExecutionContext σ) (timeout : Option Int)
    (now : Int) : Bool :=
  match timeout with
  | none => false
  | some t => elapsed_time ctx now ≥ t

/-- Outcome of a single handler call: return a result or raise. -/
inductive HandlerOutcome : Type
  | returns (r : StateResult)
  | raises (msg : String)
deriving DecidableEq, Repr

/-- One handler invocation: its outcome and the wall-clock time it consumed. -/
structure HandlerCall : Type where
  outcome : HandlerOutcome
  duration : Int

/-- A state handler: a function of the execution context and of the number
of handler invocations made so far (modelling closed-over mutable state). -/
def Handler (σ : Type) : Type := StateExecutionContext σ → Nat → HandlerCall

/-- Errors the engine can raise (Python exception classes). -/
inductive EngineError : Type
  | keyError
  | attributeError (msg : String)
  | valueError (msg : String)
  | runtimeError (msg : String)
deriving DecidableEq, Repr

/-- The caller-supplied abstract methods of a `StateMachine` subclass plus
the convention-based handler table: `_get_state_handler` resolves
`_handle_<state.value.lower()>` via `getattr`, returning `none` when the
method does not exist. -/
structure MachineDef (σ : Type) : Type where
  define_states : List σ
  define_state_metadata : List (σ × StateMetadata σ)
  define_transitions : List (StateTransition σ)
  get_initial_state : σ
  handlers : σ → Option (Handler σ)

/-- The mutable attributes of a `StateMachine` instance (`__init__`), plus
the ambient wall clock `now` and the `handler_calls` instrumentation
counter (total number of handler invocations made so far). -/
structure Engine (σ : Type) : Type where
  states : Option (List σ) := none
  state_metadata : List (σ × StateMetadata σ) := []
  transitions : List (StateTransition σ) := []
  current_state : Option σ := none
  transition_map : List (σ × List (StateTransition σ)) := []
  state_history : List (StateHistoryEntry σ) := []
  retry_counts : σ → Nat := fun _ => 0
  initialized : Bool := false
  watchdog_timeout : Option Int := none
  watchdog_last_activity : Int := 0
  watchdog_warned : Bool := false
  now : Int := 0
  handler_calls : Nat := 0

variable {σ : Type} [DecidableEq σ]

/-- Dictionary lookup (`self._state_metadata[state]` / `.get`); dict keys
are unique, so first match is the binding. -/
def lookupMeta (l : List (σ × StateMetadata σ)) (st : σ) : Option (StateMetadata σ) :=
  match l with
  | [] => none
  | p :: rest => if p.1 = st then some p.2 else lookupMeta rest st

/-- Pointwise update of the `_retry_counts` dict. -/
def setCount (f : σ → Nat) (st : σ) (v : Nat) : σ → Nat :=
  fun x => if x = st then v else f x

/-- Embeds `self._transition_map.setdefault(t.from_state, []).append(t)`. -/
def appendAt (m : List (σ × List (StateTransition σ))) (k : σ) (t : StateTransition σ) :
    List (σ × List (StateTransition σ)) :=
  match m with
  | [] => [(k, [t])]
  | (k', l) :: rest =>
      if k' = k then (k', l ++ [t]) :: rest else (k', l) :: appendAt rest k t

/-- The transition-map construction loop of `initialize`. -/
def build_transition_map (ts : List (StateTransition σ)) :
    List (σ × List (StateTransition σ)) :=
  ts.foldl (fun m t => appendAt m t.from_state t) []

/-- Embeds `self._transition_map.get(current_state, [])`. -/
def mapGetD (m : List (σ × List (StateTransition σ))) (k : σ) :
    List (StateTransition σ) :=
  match m with
  | [] => []
  | (k', l) :: rest => if k' = k then l else mapGetD rest k

/-- The per-transition endpoint checks of `_validate`, in source order. -/
def transitionsError (states : List σ) : List (StateTransition σ) → Option String
  | [] => none
  | t :: rest =>
      if t.from_state ∈ states then
        if t.to_state ∈ states then transitionsError states rest
        else some "Transition to_state not in states enum"
      else some "Transition from_state not in states enum"

/-- Embeds `StateMachine._validate`: metadata presence, initial-state membership,
transition endpoints — in source order; returns the first error message. -/
def validate (e : Engine σ) : Option String :=
  match e.states with
  | none => none
  | some states =>
      match states.find? (fun st => (lookupMeta e.state_metadata st).isNone) with
      | some _ => some "State has no metadata defined"
      | none =>
          if (match e.current_state with
              | some c => decide (c ∈ states)
              | none => false) then
            transitionsError states e.transitions
          else some "Initial state not found in states enum"

/-- The attribute assignments `initialize` performs before validating. -/
def assignConfig (d : MachineDef σ) (e : Engine σ) : Engine σ :=
  { e with
    states := some d.define_states
    state_metadata := d.define_state_metadata
    transitions := d.define_transitions
    current_state := some d.get_initial_state
    transition_map := build_transition_map d.define_transitions }

/-- Embeds `StateMachine.initialize`: no-op when already initialized; otherwise
assign the configuration, build the transition map, validate, and mark the
engine initialized.  A `ValueError` from validation carries the engine
state at the raise point (Python mutates `self` in place). -/
def initializeEngine (d : MachineDef σ) (e : Engine σ) :
    Except (EngineError × Engine σ) (Engine σ) :=
  if e.initialized then Except.ok e
  else
    let e1 := assignConfig d e
    match validate e1 with
    | some msg => Except.error (EngineError.valueError msg, e1)
    | none => Except.ok { e1 with initialized := true }

/-- The loop body of `_get_next_state`: first transition whose
`can_transition()` passes. -/
def firstPassing (ts : List (StateTransition σ)) : Option σ :=
  match ts with
  | [] => none
  | t :: rest => if can_transition t then some t.to_state else firstPassing rest

/-- Embeds `StateMachine._get_next_state` (the `result` argument is accepted and
ignored, as in the source). -/
def get_next_state (transition_map : List (σ × List (StateTransition σ)))
    (current_state : σ) (result : StateResult) : Option σ :=
  firstPassing (mapGetD transition_map current_state)

/-- Duration of the `time.sleep(0.1)` between consecutive RETRY results. -/
def sleepInterval : Int := 1

/-- State of the inner handler loop when it finishes: last result, clock,
total invocation count, and the message of an uncaught handler exception
(which aborts the loop). -/
structure LoopResult : Type where
  result : StateResult
  now : Int
  calls : Nat
  excMsg : Option String

/-- The inner `while not context.has_timed_out(...)` loop of
`_execute_state`: invoke the handler, break unless the result is RETRY,
sleep between RETRY invocations; a handler exception exits the loop with
`FAILURE` and the message (the `except` branch).  `none` = the Python loop
never terminated (fuel exhausted). -/
def handlerLoop (h : Handler σ) (ctx : StateExecutionContext σ) (timeout : Option Int) :
    Nat → Int → Nat → StateResult → Option LoopResult
  | 0, _, _, _ => none
  | fuel + 1, now, calls, result =>
      if has_timed_out ctx timeout now then some ⟨result, now, calls, none⟩
      else
        match h ctx calls with
        | ⟨HandlerOutcome.raises msg, d⟩ =>
            some ⟨StateResult.FAILURE, now + d, calls + 1, some msg⟩
        | ⟨HandlerOutcome.returns r, d⟩ =>
            if r = StateResult.RETRY then
              handlerLoop h ctx timeout fuel (now + d + sleepInterval) (calls + 1) r
            else some ⟨r, now + d, calls + 1, none⟩

/-- The synthesized message `f"Timeout after {metadata.timeout}s"`. -/
def timeoutMessage : Option Int → String
  | some t => "Timeout after " ++ toString t ++ "s"
  | none => "Timeout after Nones"

/-- Final state of one attempt: result, captured error message, clock and
invocation count. -/
structure AttemptOut : Type where
  result : StateResult
  errorMessage : Option String
  now : Int
  calls : Nat

/-- One attempt of `_execute_state`: the inner loop, then — unless a handler
exception was caught — the post-loop timeout check that forces the result
to `TIMEOUT`. -/
def runAttempt (h : Handler σ) (ctx : StateExecutionContext σ) (timeout : Option Int)
    (fuel : Nat) (now : Int) (calls : Nat) : Option AttemptOut :=
  match handlerLoop h ctx timeout fuel now calls StateResult.FAILURE with
  | none => none
  | some lr =>
      match lr.excMsg with
      | some msg => some ⟨StateResult.FAILURE, some msg, lr.now, lr.calls⟩
      | none =>
          if has_timed_out ctx timeout lr.now then
            some ⟨StateResult.TIMEOUT, some (timeoutMessage timeout), lr.now, lr.calls⟩
          else some ⟨lr.result, none, lr.now, lr.calls⟩

/-- The bounded-deque append (`deque(maxlen=100)`). -/
def dequeAppend (h : List (StateHistoryEntry σ)) (entry : StateHistoryEntry σ) :
    List (StateHistoryEntry σ) :=
  let h' := h ++ [entry]
  if h'.length > 100 then h'.drop (h'.length - 100) else h'

/-- The message of the `AttributeError` raised by `_get_state_handler`. -/
def missingHandlerMessage : String :=
  "No handler found. Implement this method to handle the state."

/-- Outcome of `_execute_state`: a returned result, an uncaught engine
error (carrying the engine state at the raise point), or divergence of the
inner loop. -/
inductive ExecOutcome (σ : Type) : Type
  | done (r : StateResult) (e : Engine σ)
  | fatal (err : EngineError) (e : Engine σ)
  | diverge

/-- Embeds `StateMachine._execute_state`: resolve metadata and handler, run one
attempt, append a history entry, then the retry / failover disposition.
`gas` bounds the retry recursion (Python recursion depth is bounded by
`max_retries - retry_count + 1`, so any `gas` larger than that is
faithful); `fuel` bounds the inner RETRY loop. -/
def executeState (d : MachineDef σ) (fuel : Nat) :
    Nat → σ → Engine σ → ExecOutcome σ
  | 0, _, _ => ExecOutcome.diverge
  | gas + 1, state, e =>
      match lookupMeta e.state_metadata state with
      | none => ExecOutcome.fatal EngineError.keyError e
      | some metadata =>
          let retry_count := e.retry_counts state
          let context : StateExecutionContext σ :=
            { current_state := state, retry_count := retry_count, start_time := e.now }
          let start := e.now
          match d.handlers state with
          | none => ExecOutcome.fatal (EngineError.attributeError missingHandlerMessage) e
          | some handler =>
              match runAttempt handler context metadata.timeout fuel e.now e.handler_calls with
              | none => ExecOutcome.diverge
              | some att =>
                  let entry : StateHistoryEntry σ :=
                    { state := state, result := att.result, duration := att.now - start,
                      timestamp := att.now, retry_count := retry_count,
                      error_message := att.errorMessage }
                  let e1 : Engine σ :=
                    { e with
                      state_history := dequeAppend e.state_history entry
                      now := att.now
                      handler_calls := att.calls }
                  if att.result = StateResult.FAILURE ∨ att.result = StateResult.RETRY ∨
                      att.result = StateResult.TIMEOUT then
                    if retry_count < metadata.max_retries then
                      executeState d fuel gas state
                        { e1 with retry_counts := setCount e1.retry_counts state (retry_count + 1) }
                    else
                      match metadata.failover_state with
                      | some f =>
                          ExecOutcome.done att.result
                            { e1 with
                              current_state := some f
                              retry_counts := setCount e1.retry_counts state 0 }
                      | none => ExecOutcome.done att.result e1
                  else if att.result = StateResult.SUCCESS then
                    ExecOutcome.done att.result
                      { e1 with retry_counts := setCount e1.retry_counts state 0 }
                  else ExecOutcome.done att.result e1

/-- Embeds `StateMachine.enable_watchdog`. -/
def enable_watchdog (e : Engine σ) (timeout_seconds : Int) : Engine σ :=
  { e with
    watchdog_timeout := some timeout_seconds
    watchdog_last_activity := e.now
    watchdog_warned := false }

/-- Embeds `StateMachine.record_activity`. -/
def record_activity (e : Engine σ) : Engine σ :=
  { e with watchdog_last_activity := e.now, watchdog_warned := false }

/-- The `RuntimeError` message of an expired watchdog. -/
def watchdogMessage : String := "Watchdog: no activity"

/-- Embeds `StateMachine._check_watchdog`: no-op when disabled; raise when
`idle >= threshold`; otherwise possibly set the 80%-threshold warning flag
(`warn_at = self._watchdog_timeout * 0.8`). -/
def check_watchdog (e : Engine σ) : Except EngineError (Engine σ) :=
  match e.watchdog_timeout with
  | none => Except.ok e
  | some wt =>
      let idle := e.now - e.watchdog_last_activity
      if idle ≥ wt then Except.error (EngineError.runtimeError watchdogMessage)
      else
        if 10 * idle ≥ 8 * wt ∧ ¬e.watchdog_warned then
          Except.ok { e with watchdog_warned := true }
        else Except.ok e

/-- Embeds `MAX_STATES_PER_RUN`. -/
def MAX_STATES_PER_RUN : Nat := 100

/-- Outcome of `run`: normal return, an uncaught error, or divergence of an
inner handler loop. -/
inductive RunOutcome (σ : Type) : Type
  | ok (e : Engine σ)
  | fatal (err : EngineError) (e : Engine σ)
  | diverge

/-- The `while steps < MAX_STATES_PER_RUN` loop of `run`: check the
watchdog, execute the current state, then either loop immediately when a
failover changed the current state, or select the next transition.
The loop counter is represented by the number of iterations left,
`remaining = MAX_STATES_PER_RUN - steps` (the guard `steps <
MAX_STATES_PER_RUN` is `remaining > 0`, and `steps += 1` decrements it);
`remaining = 0` is the safety-cap exit. -/
def runLoop (d : MachineDef σ) (fuel gas : Nat) :
    Nat → Engine σ → RunOutcome σ
  | 0, e => RunOutcome.ok e
  | remaining + 1, e =>
      match check_watchdog e with
      | Except.error err => RunOutcome.fatal err e
      | Except.ok e1 =>
          match e1.current_state with
          | none => RunOutcome.fatal EngineError.keyError e1
          | some prev =>
              match executeState d fuel gas prev e1 with
              | ExecOutcome.diverge => RunOutcome.diverge
              | ExecOutcome.fatal err e2 => RunOutcome.fatal err e2
              | ExecOutcome.done result e2 =>
                  if e2.current_state ≠ some prev then runLoop d fuel gas remaining e2
                  else
                    match get_next_state e2.transition_map prev result with
                    | none => RunOutcome.ok e2
                    | some next =>
                        runLoop d fuel gas remaining { e2 with current_state := some next }

/-- Embeds `StateMachine.run`: initialize if needed, clear the retry counts, then
drive the loop from `steps = 0` (all `MAX_STATES_PER_RUN` iterations left). -/
def run (d : MachineDef σ) (fuel gas : Nat) (e : Engine σ) : RunOutcome σ :=
  match initializeEngine d e with
  | Except.error (err, e1) => RunOutcome.fatal err e1
  | Except.ok e1 =>
      runLoop d fuel gas MAX_STATES_PER_RUN { e1 with retry_counts := fun _ => 0 }

/-- Embeds `StateMachine.get_current_state`. -/
def get_current_state (e : Engine σ) : Option σ :=
  e.current_state

/-- Python list slicing `history[k:]` for an integer `k`. -/
def pySliceFrom (h : List (StateHistoryEntry σ)) (k : Int) : List (StateHistoryEntry σ) :=
  if k < 0 then h.drop (max ((h.length : Int) + k) 0).toNat else h.drop k.toNat

/-- Embeds `StateMachine.get_history`: `history[-last_n:] if last_n is not None
else history`. -/
def get_history (e : Engine σ) (last_n : Option Int) : List (StateHistoryEntry σ) :=
  match last_n with
  | none => e.state_history
  | some n => pySliceFrom e.state_history (-n)

/-- Embeds `StateMachine.reset`. -/
def reset (d : MachineDef σ) (e : Engine σ) : Engine σ :=
  { e with current_state := some d.get_initial_state, retry_counts := fun _ => 0 }

/-! ### General lemmas about the engine -/

theorem mapGetD_appendAt (m : List (σ × List (StateTransition σ))) (k0 k : σ)
    (t : StateTransition σ) :
    mapGetD (appendAt m k0 t) k =
      if k0 = k then mapGetD m k ++ [t] else mapGetD m k := by
  induction m with
  | nil =>
      by_cases h : k0 = k <;> simp [appendAt, mapGetD, h]
  | cons p rest ih =>
      obtain ⟨k', l⟩ := p
      by_cases h1 : k' = k0
      · subst h1
        by_cases h2 : k' = k <;> simp [appendAt, mapGetD, h2]
      · by_cases h2 : k' = k
        · subst h2
          simp [appendAt, mapGetD, h1, Ne.symm h1]
        · simp [appendAt, mapGetD, h1, h2, ih]

theorem mapGetD_build_aux (ts : List (StateTransition σ))
    (m : List (σ × List (StateTransition σ))) (k : σ) :
    mapGetD (ts.foldl (fun m t => appendAt m t.from_state t) m) k =
      mapGetD m k ++ ts.filter (fun t => decide (t.from_state = k)) := by
  induction ts generalizing m with
  | nil => simp
  | cons t ts ih =>
      rw [List.foldl_cons, ih, mapGetD_appendAt]
      by_cases h : t.from_state = k
      · simp [List.filter_cons, h]
      · simp [List.filter_cons, h]

/-- The map entry `self._transition_map.get(st, [])` after `initialize` is exactly the
sublist of declared transitions whose `from_state` is `st`, in declaration
order. -/
theorem mapGetD_build (ts : List (StateTransition σ)) (k : σ) :
    mapGetD (build_transition_map ts) k =
      ts.filter (fun t => decide (t.from_state = k)) := by
  rw [build_transition_map, mapGetD_build_aux]
  simp [mapGetD]

theorem firstPassing_eq_find (ts : List (StateTransition σ)) :
    firstPassing ts = (ts.find? (fun t => can_transition t)).map
      (fun t => t.to_state) := by
  induction ts with
  | nil => simp [firstPassing]
  | cons t ts ih =>
      by_cases h : can_transition t <;> simp [firstPassing, List.find?_cons, h, ih]

theorem dequeAppend_short (h : List (StateHistoryEntry σ))
    (x : StateHistoryEntry σ) (hlen : h.length + 1 ≤ 100) :
    dequeAppend h x = h ++ [x] := by
  unfold dequeAppend
  simp only [List.length_append, List.length_cons, List.length_nil]
  rw [if_neg]
  omega

/-- Unfolding lemma: a missing handler makes `_execute_state` raise
before anything is recorded. -/
theorem executeState_fatal_no_handler (d : MachineDef σ) (fuel gas : Nat) (st : σ)
    (e : Engine σ) (M : StateMetadata σ)
    (hm : lookupMeta e.state_metadata st = some M)
    (hh : d.handlers st = none) :
    executeState d fuel (gas + 1) st e =
      ExecOutcome.fatal (EngineError.attributeError missingHandlerMessage) e := by
  simp [executeState, hm, hh]

/-- Unfolding lemma: a diverging inner loop makes `_execute_state` diverge. -/
theorem executeState_step_diverge (d : MachineDef σ) (fuel gas : Nat) (st : σ)
    (e : Engine σ) (M : StateMetadata σ) (handler : Handler σ)
    (hm : lookupMeta e.state_metadata st = some M)
    (hh : d.handlers st = some handler)
    (hatt : runAttempt handler
      { current_state := st, retry_count := e.retry_counts st, start_time := e.now }
      M.timeout fuel e.now e.handler_calls = none) :
    executeState d fuel (gas + 1) st e = ExecOutcome.diverge := by
  rw [executeState]
  simp only [hm, hh, hatt]

/-- Unfolding lemma for one completed attempt of `_execute_state`: record
the history entry, then apply the retry / failover / success disposition. -/
theorem executeState_step (d : MachineDef σ) (fuel gas : Nat) (st : σ)
    (e : Engine σ) (M : StateMetadata σ) (handler : Handler σ) (att : AttemptOut)
    (hm : lookupMeta e.state_metadata st = some M)
    (hh : d.handlers st = some handler)
    (hatt : runAttempt handler
      { current_state := st, retry_count := e.retry_counts st, start_time := e.now }
      M.timeout fuel e.now e.handler_calls = some att) :
    executeState d fuel (gas + 1) st e =
      (let e1 : Engine σ := { e with
          state_history := dequeAppend e.state_history
            { state := st, result := att.result, duration := att.now - e.now,
              timestamp := att.now, retry_count := e.retry_counts st,
              error_message := att.errorMessage }
          now := att.now
          handler_calls := att.calls }
       if att.result = StateResult.FAILURE ∨ att.result = StateResult.RETRY ∨
           att.result = StateResult.TIMEOUT then
         if e.retry_counts st < M.max_retries then
           executeState d fuel gas st
             { e1 with retry_counts := setCount e1.retry_counts st (e.retry_counts st + 1) }
         else
           match M.failover_state with
           | some f =>
               ExecOutcome.done att.result
                 { e1 with
                   current_state := some f
                   retry_counts := setCount e1.retry_counts st 0 }
           | none => ExecOutcome.done att.result e1
       else if att.result = StateResult.SUCCESS then
         ExecOutcome.done att.result
           { e1 with retry_counts := setCount e1.retry_counts st 0 }
       else ExecOutcome.done att.result e1) := by
  rw [executeState]
  simp only [hm, hh, hatt]

/-! ### Concrete fixtures (states are natural numbers) -/

/-- A handler that immediately returns SUCCESS. -/
def succH : Handler Nat := fun _ _ => ⟨HandlerOutcome.returns StateResult.SUCCESS, 0⟩

/-- A handler that immediately returns FAILURE. -/
def alwaysFailH : Handler Nat := fun _ _ => ⟨HandlerOutcome.returns StateResult.FAILURE, 0⟩

/-- A handler that fails while the context's retry index is below `n` and
succeeds from index `n` on, instantaneously. -/
def failUntil (n : Nat) : Handler σ := fun ctx _ =>
  if ctx.retry_count < n then ⟨HandlerOutcome.returns StateResult.FAILURE, 0⟩
  else ⟨HandlerOutcome.returns StateResult.SUCCESS, 0⟩

/-- A handler that keeps returning RETRY, each call consuming 10 ticks. -/
def slowRetryH : Handler Nat := fun _ _ => ⟨HandlerOutcome.returns StateResult.RETRY, 10⟩

/-- A handler that returns SUCCESS but only after consuming 10 ticks. -/
def slowSuccessH : Handler Nat := fun _ _ => ⟨HandlerOutcome.returns StateResult.SUCCESS, 10⟩

/-- One-state machine whose handler succeeds at once. -/
def DOK : MachineDef Nat :=
  { define_states := [0]
    define_state_metadata := [(0, { name := "A" })]
    define_transitions := []
    get_initial_state := 0
    handlers := fun _ => some succH }

/-- Engine ready to execute state 0 of `DOK`. -/
def EOK : Engine Nat :=
  { state_metadata := DOK.define_state_metadata, current_state := some 0 }

/-- The engine after executing state 0 of `DOK`. -/
def EOKafter : Engine Nat :=
  match executeState DOK 1 1 0 EOK with
  | ExecOutcome.done _ e => e
  | _ => EOK

/-- A freshly constructed engine (all `__init__` defaults). -/
def EFRESH : Engine Nat := { }

/-- The engine produced by a successful first `initialize` of `DOK`. -/
def EINIT : Engine Nat :=
  match initializeEngine DOK EFRESH with
  | Except.ok e => e
  | Except.error p => p.2

/-- A sample history entry. -/
def entOf (i : Nat) : StateHistoryEntry Nat :=
  { state := i, result := StateResult.SUCCESS, duration := 0, timestamp := 0 }

/-- Engine with a three-entry history. -/
def EH10 : Engine Nat := { state_history := [entOf 1, entOf 2, entOf 3] }

/-- Transition list exercising guard order: a false guard, a raising guard,
then an unguarded transition that must win, then a later true guard. -/
def TS4 : List (StateTransition Nat) :=
  [{ from_state := 0, to_state := 1, condition := some (GuardOutcome.ok false) },
   { from_state := 0, to_state := 5, condition := some GuardOutcome.raises },
   { from_state := 0, to_state := 2, condition := none },
   { from_state := 0, to_state := 3, condition := some (GuardOutcome.ok true) }]

/-! ### Claims -/

/-- C10: calling `get_history` with `last_n = 0` returns the entire history
(identical to calling with no argument), not an empty list, while for
`last_n = n ≥ 1` it returns exactly the last `min n length` entries in
order (the suffix starting at `length - n`). -/
theorem claim_C10_get_history (e : Engine σ) (n : Nat) (hn : 1 ≤ n) :
    get_history e (some 0) = e.state_history ∧
    get_history e none = e.state_history ∧
    get_history e (some (n : Int)) =
      e.state_history.drop (e.state_history.length - n) ∧
    (get_history e (some (n : Int))).length = min n e.state_history.length := by
  have h0 : get_history e (some 0) = e.state_history := by
    simp [get_history, pySliceFrom]
  have hdrop : get_history e (some (n : Int)) =
      e.state_history.drop (e.state_history.length - n) := by
    simp only [get_history, pySliceFrom]
    rw [if_pos (by omega)]
    congr 1
    omega
  refine ⟨h0, rfl, hdrop, ?_⟩
  rw [hdrop, List.length_drop]
  omega

theorem claim_C10_get_history_witness :
    1 ≤ 2 ∧
    (get_history EH10 (some 0) = EH10.state_history ∧
     get_history EH10 none = EH10.state_history ∧
     get_history EH10 (some ((2 : Nat) : Int)) =
       EH10.state_history.drop (EH10.state_history.length - 2) ∧
     (get_history EH10 (some ((2 : Nat) : Int))).length =
       min 2 EH10.state_history.length) :=
  ⟨by decide, claim_C10_get_history EH10 2 (by decide)⟩

/-- C8: for every well-formed configuration, calling `initialize()` a second
time after a successful first call is a no-op — the engine state after two
calls is identical to the engine state after one call. -/
theorem claim_C8_initialize_idempotent (d : MachineDef σ) (e e1 : Engine σ)
    (h : initializeEngine d e = Except.ok e1) :
    initializeEngine d e1 = Except.ok e1 := by
  have h1 : e1.initialized = true := by
    unfold initializeEngine at h
    by_cases he : e.initialized
    · rw [if_pos he] at h
      cases h
      exact he
    · rw [if_neg he] at h
      cases hv : validate (assignConfig d e) with
      | some msg => simp only [hv] at h; cases h
      | none =>
          simp only [hv, Except.ok.injEq] at h
          rw [← h]
  unfold initializeEngine
  rw [if_pos h1]

theorem claim_C8_initialize_idempotent_witness :
    initializeEngine DOK EINIT = Except.ok EINIT :=
  claim_C8_initialize_idempotent DOK EFRESH EINIT rfl

/-- C4: next-state selection scans the transitions sharing the `from_state`
in declaration order and returns the `to_state` of the first whose guard is
absent or true; a guard that raises is treated as false and never
propagates; if no transition passes, selection returns `none` and the run
loop terminates normally. -/
theorem claim_C4_transition_selection (ts : List (StateTransition σ)) (st : σ)
    (r : StateResult) :
    get_next_state (build_transition_map ts) st r
      = ((ts.filter (fun t => decide (t.from_state = st))).find?
          (fun t => can_transition t)).map (fun t => t.to_state) ∧
    (∀ a b : σ, can_transition
      { from_state := a, to_state := b, condition := some GuardOutcome.raises } = false) ∧
    (∀ a b : σ, can_transition
      { from_state := a, to_state := b, condition := none } = true) ∧
    (∀ (a b : σ) (g : Bool), can_transition
      { from_state := a, to_state := b, condition := some (GuardOutcome.ok g) } = g) ∧
    (∀ (d : MachineDef σ) (fuel gas rem : Nat) (e e1 e2 : Engine σ) (prev : σ)
        (r' : StateResult),
      check_watchdog e = Except.ok e1 →
      e1.current_state = some prev →
      executeState d fuel gas prev e1 = ExecOutcome.done r' e2 →
      e2.current_state = some prev →
      get_next_state e2.transition_map prev r' = none →
      runLoop d fuel gas (rem + 1) e = RunOutcome.ok e2) := by
  refine ⟨?_, fun a b => rfl, fun a b => rfl, fun a b g => rfl, ?_⟩
  · rw [get_next_state, mapGetD_build, firstPassing_eq_find]
  · intro d fuel gas rem e e1 e2 prev r' hw hc hx hc2 hn
    simp [runLoop, hw, hc, hx, hc2, hn]

theorem claim_C4_transition_selection_witness :
    runLoop DOK 1 1 1 EOK = RunOutcome.ok EOKafter ∧
    get_next_state (build_transition_map TS4) 0 StateResult.SUCCESS = some 2 ∧
    get_next_state (build_transition_map TS4) 7 StateResult.SUCCESS = none := by
  refine ⟨?_, ?_, ?_⟩
  · exact (claim_C4_transition_selection ([] : List (StateTransition Nat)) 0
      StateResult.SUCCESS).2.2.2.2 DOK 1 1 0 EOK EOK EOKafter 0 StateResult.SUCCESS
      rfl rfl rfl rfl rfl
  · rw [(claim_C4_transition_selection TS4 0 StateResult.SUCCESS).1]
    decide
  · rw [(claim_C4_transition_selection TS4 7 StateResult.SUCCESS).1]
    decide

/-- One-state machine with metadata but no bound handler. -/
def DMISS : MachineDef Nat :=
  { define_states := [0]
    define_state_metadata := [(0, { name := "A" })]
    define_transitions := []
    get_initial_state := 0
    handlers := fun _ => none }

/-- Engine ready to execute state 0 of `DMISS`. -/
def EMISS : Engine Nat :=
  { state_metadata := DMISS.define_state_metadata, current_state := some 0 }

/-- Engine with an enabled watchdog (threshold 5 ticks) that has been idle
for 7 ticks. -/
def EWD : Engine Nat :=
  { state_metadata := DOK.define_state_metadata, current_state := some 0,
    watchdog_timeout := some 5, watchdog_last_activity := 0, now := 7 }

/-- An execution context starting at tick 0. -/
def ctx0 : StateExecutionContext Nat :=
  { current_state := 0, retry_count := 0, start_time := 0 }

/-- C6: a state declared in the enumeration with no bound handler fails
fatally at its first execution: the handler-resolution `AttributeError`
propagates out of `_execute_state` (not retried, not converted to a
FAILURE result), the engine — in particular its history — is unchanged, so
no history entry is recorded and the attempt loop is never entered; the
run loop propagates the same error. -/
theorem claim_C6_missing_handler (d : MachineDef σ) (fuel gas : Nat) (st : σ)
    (e : Engine σ) (M : StateMetadata σ)
    (hm : lookupMeta e.state_metadata st = some M)
    (hh : d.handlers st = none) :
    executeState d fuel (gas + 1) st e =
      ExecOutcome.fatal (EngineError.attributeError missingHandlerMessage) e ∧
    (∀ (rem : Nat) (e0 : Engine σ),
      check_watchdog e0 = Except.ok e →
      e.current_state = some st →
      runLoop d fuel (gas + 1) (rem + 1) e0 =
        RunOutcome.fatal (EngineError.attributeError missingHandlerMessage) e) := by
  have hex : executeState d fuel (gas + 1) st e =
      ExecOutcome.fatal (EngineError.attributeError missingHandlerMessage) e := by
    simp [executeState, hm, hh]
  refine ⟨hex, fun rem e0 hw hc => ?_⟩
  simp [runLoop, hw, hc, hex]

theorem claim_C6_missing_handler_witness :
    executeState DMISS 1 1 0 EMISS =
      ExecOutcome.fatal (EngineError.attributeError missingHandlerMessage) EMISS ∧
    runLoop DMISS 1 1 1 EMISS =
      RunOutcome.fatal (EngineError.attributeError missingHandlerMessage) EMISS :=
  ⟨(claim_C6_missing_handler DMISS 1 0 0 EMISS { name := "A" } rfl rfl).1,
   (claim_C6_missing_handler DMISS 1 0 0 EMISS { name := "A" } rfl rfl).2 0 EMISS rfl rfl⟩

/-- C7: with the watchdog enabled at threshold `T`, a run-loop iteration
whose idle time is at least `T` aborts the run with the fatal idle-timeout
error before executing the current state (the engine is carried unchanged);
`record_activity` resets the idle clock and the warning flag, so that with
`0 < T` the check immediately after passes; with the watchdog never
enabled (`watchdog_timeout = none`) the check never aborts. -/
theorem claim_C7_watchdog (e : Engine σ) (T : Int) :
    (e.watchdog_timeout = some T → e.now - e.watchdog_last_activity ≥ T →
      check_watchdog e = Except.error (EngineError.runtimeError watchdogMessage)) ∧
    (∀ (d : MachineDef σ) (fuel gas rem : Nat),
      e.watchdog_timeout = some T → e.now - e.watchdog_last_activity ≥ T →
      runLoop d fuel gas (rem + 1) e =
        RunOutcome.fatal (EngineError.runtimeError watchdogMessage) e) ∧
    ((record_activity e).watchdog_last_activity = e.now ∧
     (record_activity e).watchdog_warned = false) ∧
    (e.watchdog_timeout = some T → 0 < T →
      check_watchdog (record_activity e) = Except.ok (record_activity e)) ∧
    (e.watchdog_timeout = none → check_watchdog e = Except.ok e) := by
  refine ⟨?_, ?_, ⟨rfl, rfl⟩, ?_, ?_⟩
  · intro ht hidle
    simp only [check_watchdog, ht]
    rw [if_pos hidle]
  · intro d fuel gas rem ht hidle
    have hw : check_watchdog e =
        Except.error (EngineError.runtimeError watchdogMessage) := by
      simp only [check_watchdog, ht]
      rw [if_pos hidle]
    simp [runLoop, hw]
  · intro ht hT
    simp only [check_watchdog, record_activity, ht]
    rw [if_neg (by omega), if_neg (by simp; omega)]
  · intro ht
    simp [check_watchdog, ht]

theorem claim_C7_watchdog_witness :
    check_watchdog EWD = Except.error (EngineError.runtimeError watchdogMessage) ∧
    runLoop DOK 1 1 1 EWD =
      RunOutcome.fatal (EngineError.runtimeError watchdogMessage) EWD ∧
    (record_activity EWD).watchdog_last_activity = 7 ∧
    (record_activity EWD).watchdog_warned = false ∧
    check_watchdog (record_activity EWD) = Except.ok (record_activity EWD) ∧
    check_watchdog EOK = Except.ok EOK := by
  refine ⟨(claim_C7_watchdog EWD 5).1 rfl (by decide),
    (claim_C7_watchdog EWD 5).2.1 DOK 1 1 0 rfl (by decide),
    ((claim_C7_watchdog EWD 5).2.2.1).1,
    ((claim_C7_watchdog EWD 5).2.2.1).2,
    (claim_C7_watchdog EWD 5).2.2.2.1 rfl (by decide),
    (claim_C7_watchdog EOK 0).2.2.2.2 rfl⟩

/-- C5: after the inner handler loop — when no handler exception was caught
— a timed-out context forces the attempt's result to TIMEOUT with the
synthesized error message, overriding whatever the handler last returned
(including SUCCESS); with `timeout = None` the timeout predicate is always
false and the loop's result is passed through unchanged, never forced to
TIMEOUT. -/
theorem claim_C5_timeout_forcing (hd : Handler σ) (ctx : StateExecutionContext σ)
    (t : Int) (fuel : Nat) (now0 : Int) (calls0 : Nat) (lr lr' : LoopResult) :
    (∀ now : Int, has_timed_out ctx none now = false) ∧
    (handlerLoop hd ctx (some t) fuel now0 calls0 StateResult.FAILURE = some lr →
      lr.excMsg = none →
      has_timed_out ctx (some t) lr.now = true →
      runAttempt hd ctx (some t) fuel now0 calls0 =
        some ⟨StateResult.TIMEOUT, some (timeoutMessage (some t)), lr.now, lr.calls⟩) ∧
    (handlerLoop hd ctx none fuel now0 calls0 StateResult.FAILURE = some lr' →
      lr'.excMsg = none →
      runAttempt hd ctx none fuel now0 calls0 =
        some ⟨lr'.result, none, lr'.now, lr'.calls⟩) := by
  refine ⟨fun now => rfl, ?_, ?_⟩
  · intro hl hexc hto
    simp only [runAttempt, hl, hexc, hto]
    rfl
  · intro hl hexc
    simp only [runAttempt, hl, hexc]
    rw [if_neg (by simp [has_timed_out])]

theorem claim_C5_timeout_forcing_witness :
    runAttempt slowSuccessH ctx0 (some 5) 1 0 0 =
      some ⟨StateResult.TIMEOUT, some (timeoutMessage (some 5)), 10, 1⟩ ∧
    runAttempt slowSuccessH ctx0 none 1 0 0 =
      some ⟨StateResult.SUCCESS, none, 10, 1⟩ ∧
    has_timed_out ctx0 none 1000 = false := by
  refine ⟨?_, ?_, ?_⟩
  · exact (claim_C5_timeout_forcing slowSuccessH ctx0 5 1 0 0
      ⟨StateResult.SUCCESS, 10, 1, none⟩ ⟨StateResult.SUCCESS, 10, 1, none⟩).2.1
      rfl rfl (by decide)
  · exact (claim_C5_timeout_forcing slowSuccessH ctx0 5 1 0 0
      ⟨StateResult.SUCCESS, 10, 1, none⟩ ⟨StateResult.SUCCESS, 10, 1, none⟩).2.2
      rfl rfl
  · exact (claim_C5_timeout_forcing slowSuccessH ctx0 5 1 0 0
      ⟨StateResult.SUCCESS, 10, 1, none⟩ ⟨StateResult.SUCCESS, 10, 1, none⟩).1 1000

/-! ### Projections used to state claims about computed outcomes -/

/-- The result component of a returned `_execute_state` call. -/
def outResult {σ : Type} : ExecOutcome σ → Option StateResult
  | ExecOutcome.done r _ => some r
  | _ => none

/-- The engine component of a returned `_execute_state` call. -/
def outEngine {σ : Type} : ExecOutcome σ → Option (Engine σ)
  | ExecOutcome.done _ e => some e
  | _ => none

/-- The error of a failed `initialize` call. -/
def initErr {σ : Type} : Except (EngineError × Engine σ) (Engine σ) → Option EngineError
  | Except.error p => some p.1
  | _ => none

/-- The engine state carried by a failed `initialize` call (the mutated
`self` at the moment the exception was raised). -/
def initErrEngine {σ : Type} : Except (EngineError × Engine σ) (Engine σ) → Option (Engine σ)
  | Except.error p => some p.2
  | _ => none

/-! ### C1: failover disposition -/

/-- Machine for the C1 failing input: state 0 has `max_retries = 0`,
`timeout = 5` ticks and `failover_state = 1`; its handler keeps returning
RETRY, each call consuming 10 ticks, so the single attempt times out. -/
def DTO : MachineDef Nat :=
  { define_states := [0, 1]
    define_state_metadata :=
      [(0, { name := "A", max_retries := 0, timeout := some 5, failover_state := some 1 }),
       (1, { name := "B" })]
    define_transitions := []
    get_initial_state := 0
    handlers := fun _ => some slowRetryH }

/-- Engine ready to execute state 0 of `DTO`. -/
def ETO : Engine Nat :=
  { state_metadata := DTO.define_state_metadata, current_state := some 0 }

/-- C1: at the failing input, `_execute_state` performs the failover jump
(the current state becomes the failover state 1 and state 0's retry counter
is reset to 0 after the single attempt) but reports TIMEOUT — not FAILURE —
to the caller, contradicting the claim and the function's own docstring
("jump directly to it and return FAILURE"). -/
theorem claim_C1_failover_reports_attempt_result :
    outResult (executeState DTO 3 1 0 ETO) = some StateResult.TIMEOUT ∧
    outResult (executeState DTO 3 1 0 ETO) ≠ some StateResult.FAILURE ∧
    (outEngine (executeState DTO 3 1 0 ETO)).map (fun x => x.current_state) =
      some (some 1) ∧
    (outEngine (executeState DTO 3 1 0 ETO)).map (fun x => x.retry_counts 0) =
      some 0 ∧
    (outEngine (executeState DTO 3 1 0 ETO)).map (fun x => x.handler_calls) =
      some 1 := by
  decide

/-! ### C3: failed validation -/

/-- Machine whose configuration is invalid: state 0 is declared but the
metadata mapping is empty. -/
def DBAD : MachineDef Nat :=
  { define_states := [0]
    define_state_metadata := []
    define_transitions := []
    get_initial_state := 0
    handlers := fun _ => none }

/-- C3 counterexample: `initialize` on an invalid configuration raises the
`ValueError`, but the engine observable through `get_current_state` has
been mutated by the assignments preceding validation — from `none` before
the call to `some 0` at the moment of the raise — so partial mutation IS
observable after the failure. -/
theorem claim_C3_counterexample :
    initErr (initializeEngine DBAD EFRESH) =
      some (EngineError.valueError "State has no metadata defined") ∧
    (initErrEngine (initializeEngine DBAD EFRESH)).map get_current_state =
      some (some 0) ∧
    get_current_state EFRESH = none := by
  decide

/-- C3 (amended): a configuration failing validation makes `initialize`
raise a `ValueError` with a human-readable cause, the engine is not marked
initialized — so a second `initialize` call with a fixed configuration can
succeed — but the configuration fields assigned before validation (notably
the current state) are mutated and observable after the failure. -/
theorem claim_C3_failed_validation (d : MachineDef σ) (e : Engine σ) (msg : String)
    (hinit : e.initialized = false)
    (hv : validate (assignConfig d e) = some msg) :
    initializeEngine d e =
      Except.error (EngineError.valueError msg, assignConfig d e) ∧
    (assignConfig d e).initialized = false ∧
    get_current_state (assignConfig d e) = some d.get_initial_state ∧
    (∀ d2 : MachineDef σ, validate (assignConfig d2 (assignConfig d e)) = none →
      initializeEngine d2 (assignConfig d e) =
        Except.ok { assignConfig d2 (assignConfig d e) with initialized := true }) := by
  have hassign : (assignConfig d e).initialized = false := hinit
  refine ⟨?_, hassign, rfl, ?_⟩
  · unfold initializeEngine
    rw [if_neg (by rw [hinit]; exact Bool.false_ne_true)]
    simp only [hv]
  · intro d2 hv2
    unfold initializeEngine
    rw [if_neg (by rw [hassign]; exact Bool.false_ne_true)]
    simp only [hv2]

theorem claim_C3_failed_validation_witness :
    initializeEngine DBAD EFRESH =
      Except.error (EngineError.valueError "State has no metadata defined",
        assignConfig DBAD EFRESH) ∧
    (assignConfig DBAD EFRESH).initialized = false ∧
    get_current_state (assignConfig DBAD EFRESH) = some 0 ∧
    initializeEngine DOK (assignConfig DBAD EFRESH) =
      Except.ok { assignConfig DOK (assignConfig DBAD EFRESH) with initialized := true } := by
  have h := claim_C3_failed_validation DBAD EFRESH
    "State has no metadata defined" rfl rfl
  exact ⟨h.1, h.2.1, h.2.2.1, h.2.2.2 DOK rfl⟩

/-! ### C9: failover to the state itself -/

/-- C9: when a state's `failover_state` is the state itself, exhausting its
retries leaves the current state unchanged (equal to the state), so the run
loop's failover detection — which only compares the current state before
and after execution — does not fire, and ordinary transition selection from
that state runs in the same iteration instead of being skipped. -/
theorem claim_C9_self_failover (d : MachineDef σ) (st : σ) :
    (∀ (fuel gas : Nat) (e : Engine σ) (M : StateMetadata σ) (r : StateResult)
        (e' : Engine σ),
      lookupMeta e.state_metadata st = some M →
      M.failover_state = some st →
      e.current_state = some st →
      executeState d fuel gas st e = ExecOutcome.done r e' →
      e'.current_state = some st) ∧
    (∀ (fuel gas rem : Nat) (e e1 e2 : Engine σ) (r : StateResult),
      check_watchdog e = Except.ok e1 →
      e1.current_state = some st →
      executeState d fuel gas st e1 = ExecOutcome.done r e2 →
      e2.current_state = some st →
      runLoop d fuel gas (rem + 1) e =
        (match get_next_state e2.transition_map st r with
         | none => RunOutcome.ok e2
         | some next => runLoop d fuel gas rem { e2 with current_state := some next })) := by
  constructor
  · intro fuel gas
    induction gas with
    | zero => intro e M r e' _ _ _ hx; exact absurd hx (by simp [executeState])
    | succ gas ih =>
        intro e M r e' hm hf hc hx
        cases hh : d.handlers st with
        | none =>
            rw [executeState_fatal_no_handler d fuel gas st e M hm hh] at hx
            cases hx
        | some handler =>
            cases hatt : runAttempt handler
                { current_state := st, retry_count := e.retry_counts st,
                  start_time := e.now } M.timeout fuel e.now e.handler_calls with
            | none =>
                rw [executeState_step_diverge d fuel gas st e M handler hm hh hatt] at hx
                cases hx
            | some att =>
                rw [executeState_step d fuel gas st e M handler att hm hh hatt] at hx
                simp only at hx
                by_cases hres : att.result = StateResult.FAILURE ∨
                    att.result = StateResult.RETRY ∨ att.result = StateResult.TIMEOUT
                · rw [if_pos hres] at hx
                  by_cases hlt : e.retry_counts st < M.max_retries
                  · rw [if_pos hlt] at hx
                    refine ih _ M r e' ?_ hf ?_ hx
                    · exact hm
                    · exact hc
                  · rw [if_neg hlt, hf] at hx
                    cases hx
                    rfl
                · rw [if_neg hres] at hx
                  by_cases hsucc : att.result = StateResult.SUCCESS
                  · rw [if_pos hsucc] at hx
                    cases hx
                    exact hc
                  · rw [if_neg hsucc] at hx
                    cases hx
                    exact hc
  · intro fuel gas rem e e1 e2 r hw hc hx hc2
    simp [runLoop, hw, hc, hx, hc2]

/-- Machine whose only interesting state fails over to itself: state 0 has
`max_retries = 0` and `failover_state = 0`, an always-failing handler, and
an unguarded transition to state 1. -/
def DSF : MachineDef Nat :=
  { define_states := [0, 1]
    define_state_metadata :=
      [(0, { name := "A", max_retries := 0, failover_state := some 0 }),
       (1, { name := "B" })]
    define_transitions := [{ from_state := 0, to_state := 1, condition := none }]
    get_initial_state := 0
    handlers := fun st => if st = 0 then some alwaysFailH else some succH }

/-- The engine produced by initializing `DSF`. -/
def ESF : Engine Nat :=
  match initializeEngine DSF { } with
  | Except.ok e => e
  | Except.error p => p.2

/-- The engine after executing state 0 of `DSF` (retries exhausted,
failover to itself). -/
def ESF2 : Engine Nat :=
  match executeState DSF 1 1 0 ESF with
  | ExecOutcome.done _ e => e
  | _ => ESF

theorem claim_C9_self_failover_witness :
    ESF2.current_state = some 0 ∧
    runLoop DSF 1 1 2 ESF =
      (match get_next_state ESF2.transition_map 0 StateResult.FAILURE with
       | none => RunOutcome.ok ESF2
       | some next => runLoop DSF 1 1 1 { ESF2 with current_state := some next }) :=
  ⟨(claim_C9_self_failover DSF 0).1 1 1 ESF
      { name := "A", max_retries := 0, failover_state := some 0 }
      StateResult.FAILURE ESF2 rfl rfl rfl rfl,
   (claim_C9_self_failover DSF 0).2 1 1 1 ESF ESF ESF2 StateResult.FAILURE
      rfl rfl rfl rfl⟩

/-! ### C2: retry then succeed -/

/-- Per-entry summary (state, result, retry index) of a history list. -/
def histSummary (l : List (StateHistoryEntry σ)) : List (σ × StateResult × Nat) :=
  l.map (fun x => (x.state, x.result, x.retry_count))

theorem histSummary_append (l1 l2 : List (StateHistoryEntry σ)) :
    histSummary (l1 ++ l2) = histSummary l1 ++ histSummary l2 := by
  simp [histSummary]

/-- One attempt of the `failUntil` handler with no timeout: instantaneous,
one invocation, FAILURE below the threshold and SUCCESS at it. -/
theorem runAttempt_failUntil (n : Nat) (st : σ) (rc : Nat) (tmo : Option Int)
    (hto : tmo = none) (fuel : Nat) (hfuel : 1 ≤ fuel) (now : Int) (calls : Nat) :
    runAttempt (failUntil n)
      { current_state := st, retry_count := rc, start_time := now } tmo fuel now calls =
      some ⟨if rc < n then StateResult.FAILURE else StateResult.SUCCESS,
        none, now, calls + 1⟩ := by
  subst hto
  cases fuel with
  | zero => omega
  | succ f =>
      by_cases hrc : rc < n <;>
        simp [runAttempt, handlerLoop, has_timed_out, failUntil, hrc]

/-- Executing a state bound to `failUntil n` starting `k` retries below the
threshold (with `max_retries = n` and no timeout): `k + 1` invocations,
`k` FAILURE entries followed by one SUCCESS entry, SUCCESS returned, retry
counter reset to 0. -/
theorem executeState_failUntil (d : MachineDef σ) (st : σ) (n : Nat)
    (M : StateMetadata σ) (hmax : M.max_retries = n) (hto : M.timeout = none)
    (hh : d.handlers st = some (failUntil n)) :
    ∀ (k r fuel gas : Nat) (e : Engine σ),
      lookupMeta e.state_metadata st = some M →
      e.retry_counts st = r →
      r + k = n →
      e.state_history.length + (k + 1) ≤ 100 →
      1 ≤ fuel → k < gas →
      ∃ e' : Engine σ,
        executeState d fuel gas st e = ExecOutcome.done StateResult.SUCCESS e' ∧
        e'.handler_calls = e.handler_calls + (k + 1) ∧
        histSummary e'.state_history = histSummary e.state_history ++
          ((List.range k).map (fun i => (st, StateResult.FAILURE, r + i)) ++
            [(st, StateResult.SUCCESS, n)]) ∧
        e'.retry_counts st = 0 := by
  intro k
  induction k with
  | zero =>
      intro r fuel gas e hm hr hrk hlen hfuel hgas
      obtain ⟨g, rfl⟩ : ∃ g, gas = g + 1 := ⟨gas - 1, by omega⟩
      have hatt : runAttempt (failUntil n)
          { current_state := st, retry_count := e.retry_counts st, start_time := e.now }
          M.timeout fuel e.now e.handler_calls =
          some ⟨StateResult.SUCCESS, none, e.now, e.handler_calls + 1⟩ := by
        rw [runAttempt_failUntil n st (e.retry_counts st) M.timeout hto fuel hfuel
          e.now e.handler_calls, hr, if_neg (by omega)]
      rw [executeState_step d fuel g st e M (failUntil n)
        ⟨StateResult.SUCCESS, none, e.now, e.handler_calls + 1⟩ hm hh hatt]
      simp only
      rw [if_pos trivial]
      refine ⟨_, rfl, by simp, ?_, by simp [setCount]⟩
      rw [dequeAppend_short e.state_history _ (by omega), histSummary_append, hr]
      have hrn : r = n := by omega
      simp [histSummary, hrn]
  | succ k ih =>
      intro r fuel gas e hm hr hrk hlen hfuel hgas
      obtain ⟨g, rfl⟩ : ∃ g, gas = g + 1 := ⟨gas - 1, by omega⟩
      have hatt : runAttempt (failUntil n)
          { current_state := st, retry_count := e.retry_counts st, start_time := e.now }
          M.timeout fuel e.now e.handler_calls =
          some ⟨StateResult.FAILURE, none, e.now, e.handler_calls + 1⟩ := by
        rw [runAttempt_failUntil n st (e.retry_counts st) M.timeout hto fuel hfuel
          e.now e.handler_calls, hr, if_pos (by omega)]
      rw [executeState_step d fuel g st e M (failUntil n)
        ⟨StateResult.FAILURE, none, e.now, e.handler_calls + 1⟩ hm hh hatt]
      simp only
      rw [if_pos (Or.inl trivial)]
      rw [if_pos (show e.retry_counts st < M.max_retries by rw [hr, hmax]; omega)]
      rw [dequeAppend_short e.state_history _ (by omega)]
      have hrec := ih (r + 1) fuel g
        { e with
          state_history := e.state_history ++
            [{ state := st, result := StateResult.FAILURE, duration := e.now - e.now,
               timestamp := e.now, retry_count := e.retry_counts st,
               error_message := none }]
          now := e.now
          handler_calls := e.handler_calls + 1
          retry_counts := setCount e.retry_counts st (e.retry_counts st + 1) }
        hm (by simp [setCount, hr]) (by omega) (by simp; omega) hfuel (by omega)
      obtain ⟨e', hexec, hcalls, hhist, hret⟩ := hrec
      refine ⟨e', hexec, by rw [hcalls]; simp; omega, ?_, hret⟩
      rw [hhist]
      simp only [histSummary_append, hr]
      rw [List.range_succ_eq_map]
      simp [histSummary, List.map_map, List.append_assoc, Function.comp]
      intro a _
      omega

/-- C2: for every state with `max_retries = n` (and no timeout configured)
whose handler fails on retry indices `0..n-1` and succeeds on index `n`,
starting from retry counter 0, executing the state causes exactly `n + 1`
handler invocations, appends exactly `n + 1` history entries — FAILURE with
retry indices `0..n-1`, then SUCCESS with retry index `n` — returns
SUCCESS, and resets the state's retry counter to 0. -/
theorem claim_C2_retry_then_succeed (d : MachineDef σ) (st : σ) (n : Nat)
    (M : StateMetadata σ) (e : Engine σ) (fuel gas : Nat)
    (hm : lookupMeta e.state_metadata st = some M)
    (hmax : M.max_retries = n) (hto : M.timeout = none)
    (hh : d.handlers st = some (failUntil n))
    (hr : e.retry_counts st = 0)
    (hlen : e.state_history.length + (n + 1) ≤ 100)
    (hfuel : 1 ≤ fuel) (hgas : n < gas) :
    outResult (executeState d fuel gas st e) = some StateResult.SUCCESS ∧
    (outEngine (executeState d fuel gas st e)).map (fun x => x.handler_calls) =
      some (e.handler_calls + (n + 1)) ∧
    (outEngine (executeState d fuel gas st e)).map (fun x => histSummary x.state_history) =
      some (histSummary e.state_history ++
        ((List.range n).map (fun i => (st, StateResult.FAILURE, i)) ++
          [(st, StateResult.SUCCESS, n)])) ∧
    (outEngine (executeState d fuel gas st e)).map (fun x => x.retry_counts st) =
      some 0 := by
  obtain ⟨e', hexec, hcalls, hhist, hret⟩ :=
    executeState_failUntil d st n M hmax hto hh n 0 fuel gas e hm hr (by omega)
      hlen hfuel hgas
  rw [hexec]
  refine ⟨rfl, ?_, ?_, ?_⟩
  · simp [outEngine, hcalls]
  · simp only [outEngine, Option.map]
    rw [hhist]
    simp
  · simp [outEngine, hret]

/-- Machine for the C2 witness: state 0 with `max_retries = 2` and the
`failUntil 2` handler. -/
def DRS : MachineDef Nat :=
  { define_states := [0]
    define_state_metadata := [(0, { name := "A", max_retries := 2 })]
    define_transitions := []
    get_initial_state := 0
    handlers := fun _ => some (failUntil 2) }

/-- Engine ready to execute state 0 of `DRS`. -/
def ERS : Engine Nat :=
  { state_metadata := DRS.define_state_metadata, current_state := some 0 }

theorem claim_C2_retry_then_succeed_witness :
    outResult (executeState DRS 1 3 0 ERS) = some StateResult.SUCCESS ∧
    (outEngine (executeState DRS 1 3 0 ERS)).map (fun x => x.handler_calls) =
      some (ERS.handler_calls + (2 + 1)) ∧
    (outEngine (executeState DRS 1 3 0 ERS)).map (fun x => histSummary x.state_history) =
      some (histSummary ERS.state_history ++
        ((List.range 2).map (fun i => (0, StateResult.FAILURE, i)) ++
          [(0, StateResult.SUCCESS, 2)])) ∧
    (outEngine (executeState DRS 1 3 0 ERS)).map (fun x => x.retry_counts 0) =
      some 0 :=
  claim_C2_retry_then_succeed DRS 0 2 { name := "A", max_retries := 2 } ERS 1 3
    rfl rfl rfl rfl rfl (by decide) (by decide) (by decide)

end SM
